import Mathlib

set_option maxRecDepth 8192

/-!
Verification of the Audiotracker capture widget.

The development embeds the browser audio-recorder component
(`src/app/components/AudioRecorder.tsx`) as an explicit event-driven state
machine: React state and refs become fields of `ARState`, the platform's
responses (permission grants, acquired tracks, recorder failures) are an
explicit environment `StartEnv`, and every UI or platform callback is a
transition of `step`.  The gain-slider revision of the component and the
upload API route are embedded separately (`Rev3State`, `uploadPOST`).
-/

/-- Capture mode selected in the UI: `recordingMode` in the component. -/
inductive Mode where
  | microphone
  | system
  | both
deriving DecidableEq, Repr

/-- A thrown JavaScript error: platform errors carry names such as
`NotAllowedError`; errors built with `new Error(msg)` have name `Error`. -/
structure JsError where
  name : String
  message : String
deriving DecidableEq, Repr

/-- A media-stream track together with the number of `track.stop()` calls it
has received.  A track is active while `stopCalls = 0`. -/
structure Track where
  id : Nat
  stopCalls : Nat
deriving DecidableEq, Repr

/-- `stream.getTracks().forEach(track => track.stop())` for the tracks whose
ids belong to `ids`: each such track receives one additional stop call. -/
def stopIds (ids : List Nat) (ts : List Track) : List Track :=
  ts.map (fun t => if t.id ∈ ids then { t with stopCalls := t.stopCalls + 1 } else t)

/-- Freshly acquired tracks with the given ids, each not yet stopped. -/
def mkTracks (ids : List Nat) : List Track :=
  ids.map (fun i => { id := i, stopCalls := 0 })

/-- Lifecycle phase of the `MediaRecorder` held in `mediaRecorderRef`:
`active b` is state `recording` (`b` records whether `onstart` has fired),
`stopPending` is state `inactive` with the final `dataavailable` and
`stop` events not yet delivered (after `recorder.stop()` or after a
recorder error, since the platform fires both events in either case), and
`done` is `inactive` with no pending events. -/
inductive RecPhase where
  | active (startFired : Bool)
  | stopPending
  | done
deriving DecidableEq, Repr

/-- Platform responses consumed by one `startRecording` call: the outcome of
`getUserMedia` (granted microphone track ids or a thrown error), the outcome
of `getDisplayMedia` (granted audio-track ids and video-track ids, or a
thrown error), and whether `new MediaRecorder(stream)` throws. -/
structure StartEnv where
  micOutcome : Except JsError (List Nat)
  displayOutcome : Except JsError (List Nat × List Nat)
  recorderErr : Option String
deriving Repr

/-- State of the `AudioRecorder` component: the React state hooks
(`isRecording`, `isPlaying`, `hasRecording`, `error`, `audioLevel`,
`recordingMode`, `isBrowserSupported`) and the refs (`chunksRef`,
`micStreamRef` and `systemStreamRef` as track-id lists, `mediaRecorderRef`,
`audioRef.src` as `audioSrc`).  `tracks` registers every track acquired from
the platform with its stop count, `pendingPlay` models an unresolved
`audio.play()` promise, and `displayRequests` counts `getDisplayMedia`
calls. -/
structure ARState where
  isRecording : Bool
  isPlaying : Bool
  hasRecording : Bool
  error : Option String
  audioLevel : Nat
  recordingMode : Mode
  chunks : List (List Nat)
  micIds : List Nat
  sysIds : List Nat
  tracks : List Track
  recorder : Option RecPhase
  audioSrc : Option (List Nat)
  pendingPlay : Bool
  displayRequests : Nat
  isBrowserSupported : Bool
deriving DecidableEq, Repr

/-- Message thrown by `startRecording` when the browser lacks the APIs. -/
def unsupportedMsg : String := "Your browser does not support audio recording"

/-- Message stored by `recorder.onstop` when no chunks were collected. -/
def noDataMsg : String := "No audio data was recorded"

/-- Message stored by `playAudio` when there is no recording to play. -/
def noPlayMsg : String := "No recording available to play"

/-- Message thrown in system mode when `getDisplayMedia` is denied
(`NotAllowedError`), from the `.catch` attached to the request. -/
def sysPermissionDeniedMsg : String :=
  "System audio permission denied. Please follow these steps:\n\n" ++
  "1. Browser Settings:\n" ++
  "   - Click the lock/info icon in the address bar\n" ++
  "   - Go to Site Settings\n" ++
  "   - Allow screen sharing and audio permissions\n" ++
  "   - Refresh the page\n\n" ++
  "2. When the sharing popup appears:\n" ++
  "   - Select \"Screen\" tab (not Window/Tab)\n" ++
  "   - Choose \"Entire Screen\"\n" ++
  "   - IMPORTANT: Check \"Share system audio\" box\n\n" ++
  "3. If still not working:\n" ++
  "   - Check browser settings > Privacy & Security\n" ++
  "   - Look for \"Screen Sharing\" or \"Media\" permissions\n" ++
  "   - Make sure system audio sharing is enabled\n" ++
  "   - Try using Chrome or Edge for best compatibility"

/-- Message thrown in system mode for a `NotFoundError` from
`getDisplayMedia`. -/
def sysNotFoundMsg : String :=
  "No audio source found. Please check your system audio settings."

/-- Message thrown in system mode for a `NotReadableError` from
`getDisplayMedia`. -/
def sysNotReadableMsg : String :=
  "Could not access system audio. Try closing other applications using audio capture."

/-- Message thrown in system mode when the granted display stream carries no
audio track (the stream's tracks are all stopped first). -/
def sysNoAudioMsg : String :=
  "System audio capture failed. Please check:\n\n" ++
  "1. System Audio:\n" ++
  "   - Make sure audio is playing on your system\n" ++
  "   - Check system volume is not muted\n" ++
  "   - Try playing a YouTube video or music\n\n" ++
  "2. Sharing Settings:\n" ++
  "   - \"Share system audio\" must be checked\n" ++
  "   - Select \"Entire Screen\" option\n" ++
  "   - Use \"Screen\" tab in sharing dialog\n\n" ++
  "3. Browser Settings:\n" ++
  "   - Allow screen sharing permission\n" ++
  "   - Enable system audio capture\n" ++
  "   - Try Chrome or Edge browser"

/-- Message produced by the outer system-mode catch for a raw
`NotAllowedError`. -/
def sysOuterNotAllowedMsg : String :=
  "Permission denied. Please try:\n\n" ++
  "1. Allow screen sharing when prompted\n" ++
  "2. Make sure \"Share system audio\" is checked\n" ++
  "3. If denied accidentally:\n" ++
  "   - Click the camera icon in address bar\n" ++
  "   - Reset permissions and try again\n" ++
  "4. Check browser settings for media permissions"

/-- Message produced by the outer system-mode catch for a raw
`NotReadableError`. -/
def sysOuterNotReadableMsg : String :=
  "Could not access system audio. Please try:\n\n" ++
  "1. Close other apps using audio capture\n" ++
  "2. Refresh the page\n" ++
  "3. Restart the browser if issue persists"

/-- Message thrown in combined mode when the display stream has no audio
track. -/
def bothNoAudioMsg : String :=
  "No system audio detected. Please make sure to check \"Share system audio\"."

/-- Message produced by the combined-mode catch for a `NotAllowedError`. -/
def bothPermissionMsg : String :=
  "Permission denied for combined recording. Please follow these steps:\n\n" ++
  "1. Microphone Setup:\n" ++
  "   - Allow microphone access in browser settings\n" ++
  "   - Check if microphone is working in system settings\n" ++
  "   - Make sure no other app is using the microphone\n\n" ++
  "2. System Audio Setup:\n" ++
  "   - Set appropriate system volume (50-75%)\n" ++
  "   - Ensure audio output is working\n" ++
  "   - Try playing some audio to verify\n\n" ++
  "3. Browser Settings:\n" ++
  "   - Allow both microphone and screen capture permissions\n" ++
  "   - Enable system audio sharing in browser settings\n\n" ++
  "4. When Sharing Screen:\n" ++
  "   - Select \"Screen\" tab\n" ++
  "   - Choose \"Entire Screen\"\n" ++
  "   - Check \"Share system audio\" box\n" ++
  "   - Grant both mic and screen permissions when prompted"

/-- The `.catch` attached to the system-mode `getDisplayMedia` request:
translates `NotAllowedError`, `NotFoundError` and `NotReadableError` into
instructional `Error`s and rethrows anything else unchanged. -/
def mapSystemInner (e : JsError) : JsError :=
  if e.name = "NotAllowedError" then ⟨"Error", sysPermissionDeniedMsg⟩
  else if e.name = "NotFoundError" then ⟨"Error", sysNotFoundMsg⟩
  else if e.name = "NotReadableError" then ⟨"Error", sysNotReadableMsg⟩
  else e

/-- The outer system-mode catch block: remaps raw `NotAllowedError` and
`NotReadableError` and rethrows everything else unchanged. -/
def mapSystemOuter (e : JsError) : JsError :=
  if e.name = "NotAllowedError" then ⟨"Error", sysOuterNotAllowedMsg⟩
  else if e.name = "NotReadableError" then ⟨"Error", sysOuterNotReadableMsg⟩
  else e

/-- The combined-mode catch block: maps `NotAllowedError` to the combined
permission-guidance message and rethrows everything else unchanged. -/
def mapBothCatch (e : JsError) : JsError :=
  if e.name = "NotAllowedError" then ⟨"Error", bothPermissionMsg⟩ else e

/-- `getAudioStream`: acquires input streams according to the selected mode.
Returns the updated state (acquired tracks registered, refs set,
`getDisplayMedia` calls counted) together with `some e` when the function
throws `e`, or `none` on success.  Side effects performed before a throw
persist, as in the source. -/
def getAudioStream (env : StartEnv) (s : ARState) : ARState × Option JsError :=
  match s.recordingMode with
  | Mode.microphone =>
    match env.micOutcome with
    | Except.error e => (s, some e)
    | Except.ok ids =>
      ({ s with tracks := s.tracks ++ mkTracks ids, micIds := ids }, none)
  | Mode.system =>
    let s1 := { s with displayRequests := s.displayRequests + 1 }
    match env.displayOutcome with
    | Except.error e => (s1, some (mapSystemOuter (mapSystemInner e)))
    | Except.ok (aIds, vIds) =>
      let s2 := { s1 with tracks := s1.tracks ++ mkTracks aIds ++ mkTracks vIds }
      match aIds with
      | [] =>
        ({ s2 with tracks := stopIds (aIds ++ vIds) s2.tracks },
         some (mapSystemOuter ⟨"Error", sysNoAudioMsg⟩))
      | a :: _ =>
        ({ s2 with sysIds := [a], tracks := stopIds vIds s2.tracks }, none)
  | Mode.both =>
    match env.micOutcome with
    | Except.error e => (s, some (mapBothCatch e))
    | Except.ok mIds =>
      let s1 := { s with tracks := s.tracks ++ mkTracks mIds, micIds := mIds,
                         displayRequests := s.displayRequests + 1 }
      match env.displayOutcome with
      | Except.error e => (s1, some (mapBothCatch e))
      | Except.ok (aIds, vIds) =>
        let s2 := { s1 with tracks := s1.tracks ++ mkTracks aIds ++ mkTracks vIds }
        match aIds with
        | [] =>
          ({ s2 with tracks := stopIds (aIds ++ vIds) s2.tracks },
           some (mapBothCatch ⟨"Error", bothNoAudioMsg⟩))
        | a :: _ =>
          ({ s2 with sysIds := [a], tracks := stopIds vIds s2.tracks }, none)

/-- The catch block of `startRecording`: stores the error message, clears
the recording flag and level, and stops the tracks of the microphone and
system streams currently referenced. -/
def startFail (e : JsError) (s : ARState) : ARState :=
  { s with error := some e.message, isRecording := false, audioLevel := 0,
           tracks := stopIds s.sysIds (stopIds s.micIds s.tracks) }

/-- Body of `startRecording` after the error and the chunk buffer have been
cleared: checks browser support, acquires the stream via `getAudioStream`,
and creates and starts a `MediaRecorder`.  Any throw lands in `startFail`. -/
def startRecordingBody (env : StartEnv) (t : ARState) : ARState :=
  if t.isBrowserSupported = false then
    startFail ⟨"Error", unsupportedMsg⟩ t
  else
    match getAudioStream env t, env.recorderErr with
    | (s1, some e), _ => startFail e s1
    | (s1, none), some m =>
      startFail ⟨"Error", "Failed to create audio recorder: " ++ m⟩ s1
    | (s1, none), none => { s1 with recorder := some (RecPhase.active false) }

/-- `startRecording`: clears the error and the chunk buffer, then runs
`startRecordingBody`.  `isRecording` is only set by the recorder's
`onstart` callback, a separate transition. -/
def startRecording (env : StartEnv) (s : ARState) : ARState :=
  startRecordingBody env { s with error := none, chunks := ([] : List (List Nat)) }

/-- `recorder.ondataavailable`: appends the delivered chunk to the buffer
when its size is positive. -/
def dataHandler (c : List Nat) (s : ARState) : ARState :=
  if 0 < c.length then { s with chunks := s.chunks ++ [c] } else s

/-- `recorder.onstop`: with an empty chunk buffer it stores the no-data
error and returns early — in particular without stopping any stream track.
Otherwise it concatenates the chunks into the artifact blob, installs it as
the playable source, marks `hasRecording`, and only then stops the
microphone and system tracks, resets the level and clears the recording
flag. -/
def onStopHandler (s : ARState) : ARState :=
  if s.chunks = [] then
    { s with error := some noDataMsg, recorder := some RecPhase.done }
  else
    let s1 := { s with audioSrc := some s.chunks.flatten, hasRecording := true }
    { s1 with tracks := stopIds s1.sysIds (stopIds s1.micIds s1.tracks),
              audioLevel := 0, isRecording := false,
              recorder := some RecPhase.done }

/-- `recorder.onerror`: stores the error message, clears the recording flag
and level, and stops the microphone and system tracks.  The chunk buffer
and the existing artifact are left untouched.  Per the platform's
error-handling algorithm the recorder becomes inactive but still delivers
a final `dataavailable` and a `stop` event, so the phase is left
stop-pending. -/
def onErrorHandler (m : Option String) (s : ARState) : ARState :=
  { s with error := some ("Recording error: " ++ m.getD "Unknown error"),
           isRecording := false, audioLevel := 0,
           tracks := stopIds s.sysIds (stopIds s.micIds s.tracks),
           recorder := some RecPhase.stopPending }

/-- `stopRecording`: when a recorder exists and its state is not
`inactive`, calls `recorder.stop()` (queueing the `stop` event) and clears
the recording flag; otherwise does nothing. -/
def stopClickHandler (s : ARState) : ARState :=
  match s.recorder with
  | some (RecPhase.active _) =>
    { s with recorder := some RecPhase.stopPending, isRecording := false }
  | _ => s

/-- The playback-button click: while playing it pauses (`stopAudio`),
otherwise `playAudio` either reports the missing recording or starts the
`audio.play()` promise, whose resolution is a separate transition. -/
def playClickHandler (s : ARState) : ARState :=
  if s.isPlaying then { s with isPlaying := false }
  else
    match s.audioSrc with
    | none => { s with error := some noPlayMsg }
    | some _ => { s with pendingPlay := true }

/-- Resolution of the `audio.play()` promise: on success sets the playing
flag and clears the error, on failure stores the playback error. -/
def playResolvedHandler (ok : Bool) (failMsg : String) (s : ARState) : ARState :=
  if ok then { s with isPlaying := true, error := none, pendingPlay := false }
  else { s with error := some ("Failed to play audio: " ++ failMsg),
                isPlaying := false, pendingPlay := false }

/-- Events of the component: user clicks (guarded by the rendered and
enabled controls) and platform callbacks. -/
inductive Ev where
  | startClick (env : StartEnv)
  | onStart
  | dataAvailable (c : List Nat)
  | stopClick
  | onStop
  | onError (m : Option String)
  | playClick
  | playResolved (ok : Bool) (failMsg : String)
  | audioEnded
  | selectMode (m : Mode)

/-- One transition of the component.  User clicks are no-ops when the
corresponding control is not rendered or is disabled
(`disabled={isPlaying}` on the record button, the play button rendered only
when `hasRecording && !isRecording`, mode buttons disabled while
recording); platform callbacks are no-ops when the recorder is not in the
matching phase. -/
def step (s : ARState) (e : Ev) : ARState :=
  match e with
  | Ev.startClick env =>
    if s.isBrowserSupported && !s.isPlaying && !s.isRecording then
      startRecording env s
    else s
  | Ev.onStart =>
    match s.recorder with
    | some (RecPhase.active false) =>
      { s with recorder := some (RecPhase.active true),
               isRecording := true, error := none }
    | _ => s
  | Ev.dataAvailable c =>
    match s.recorder with
    | some (RecPhase.active _) => dataHandler c s
    | some RecPhase.stopPending => dataHandler c s
    | _ => s
  | Ev.stopClick =>
    if s.isBrowserSupported && !s.isPlaying && s.isRecording then
      stopClickHandler s
    else s
  | Ev.onStop =>
    match s.recorder with
    | some RecPhase.stopPending => onStopHandler s
    | _ => s
  | Ev.onError m =>
    match s.recorder with
    | some (RecPhase.active _) => onErrorHandler m s
    | _ => s
  | Ev.playClick =>
    if s.isBrowserSupported && s.hasRecording && !s.isRecording then
      playClickHandler s
    else s
  | Ev.playResolved ok m =>
    if s.pendingPlay then playResolvedHandler ok m s else s
  | Ev.audioEnded => { s with isPlaying := false }
  | Ev.selectMode m =>
    if s.isBrowserSupported && !s.isRecording then
      { s with recordingMode := m }
    else s

/-- Run a sequence of events from a state. -/
def runEvents (s : ARState) (es : List Ev) : ARState :=
  es.foldl step s

/-- The freshly mounted component: all flags false, no error, empty buffer,
microphone mode, no streams, no recorder, no artifact. -/
def initState (supported : Bool) : ARState where
  isRecording := false
  isPlaying := false
  hasRecording := false
  error := none
  audioLevel := 0
  recordingMode := Mode.microphone
  chunks := []
  micIds := []
  sysIds := []
  tracks := []
  recorder := none
  audioSrc := none
  pendingPlay := false
  displayRequests := 0
  isBrowserSupported := supported

/-- The acquired tracks that have never received a stop call. -/
def activeTracks (s : ARState) : List Track :=
  s.tracks.filter (fun t => t.stopCalls == 0)

/-- An environment in which the platform grants the requests the given mode
needs: microphone track id 1, display audio track id 2, display video track
id 3. -/
def grantEnv : Mode → StartEnv
  | Mode.microphone => ⟨Except.ok [1], Except.ok ([], []), none⟩
  | Mode.system => ⟨Except.ok [], Except.ok ([2], [3]), none⟩
  | Mode.both => ⟨Except.ok [1], Except.ok ([2], [3]), none⟩

/-- Composite user operations for the serialized semantics: each initiated
operation's completion callback fires before the next user action
(`record` bundles the start click with `onstart`, `play` bundles the click
with the promise resolution, `stopRec` bundles the stop click with
`onstop`). -/
inductive UserOp where
  | record (env : StartEnv)
  | stopRec
  | recErr (m : Option String)
  | chunk (c : List Nat)
  | play (ok : Bool) (failMsg : String)
  | ended
  | chooseMode (m : Mode)

/-- One serialized step: the fine-grained transitions of `step` composed so
that completions immediately follow initiations. -/
def atomicStep (s : ARState) (op : UserOp) : ARState :=
  match op with
  | UserOp.record env => step (step s (Ev.startClick env)) Ev.onStart
  | UserOp.stopRec => step (step s Ev.stopClick) Ev.onStop
  | UserOp.recErr m => step s (Ev.onError m)
  | UserOp.chunk c => step s (Ev.dataAvailable c)
  | UserOp.play ok m => step (step s Ev.playClick) (Ev.playResolved ok m)
  | UserOp.ended => step s Ev.audioEnded
  | UserOp.chooseMode m => step s (Ev.selectMode m)

/-- Run a sequence of serialized operations. -/
def runAtomic (s : ARState) (ops : List UserOp) : ARState :=
  ops.foldl atomicStep s

/-- True when the recorder is not waiting for its `onstart` callback. -/
def noPendingStart (s : ARState) : Bool :=
  decide (s.recorder ≠ some (RecPhase.active false))

/-- Inductive invariant of the serialized semantics: the two activity flags
are never simultaneously set, no play promise is pending between
operations, and no recorder is waiting for `onstart`. -/
def exclusiveInv (s : ARState) : Bool :=
  !(s.isRecording && s.isPlaying) && !s.pendingPlay && noPendingStart s

/-- A gain node of the gain-slider revision: its handle identity and its
current `gain.value` multiplier. -/
structure RevGainNode where
  id : Nat
  gain : ℚ
deriving DecidableEq

/-- State of the gain-slider revision of the component: React state
(`isRecording`, `audioData` as blob bytes with a url handle, `isPlaying`,
`showPermissionModal`, `permissionError`, `gainValue`) and the refs
(recorder, context, source, gain and destination nodes as handles, the
chunk buffer) plus the audio-graph connections built by
`requestPermission`. -/
structure Rev3State where
  isRecording : Bool
  audioData : Option (List Nat × Nat)
  isPlaying : Bool
  showPermissionModal : Bool
  permissionError : Option String
  gainValue : ℚ
  mediaRecorder : Option Nat
  audioContext : Option Nat
  audioSource : Option Nat
  gainNode : Option RevGainNode
  audioDestination : Option Nat
  audioChunks : List (List Nat)
  connections : List (Nat × Nat)
deriving DecidableEq

/-- The success path of the gain revision's `requestPermission`: builds the
graph source → gain → destination (node handles 1, 2, 3), creates the
recorder (handle 4) with an empty chunk buffer, and starts recording.  The
gain node is created with the current `gainValue`. -/
def requestPermissionGranted (s : Rev3State) : Rev3State :=
  { s with permissionError := none, showPermissionModal := false,
           audioContext := some 0, audioSource := some 1,
           gainNode := some ⟨2, s.gainValue⟩, audioDestination := some 3,
           connections := [(1, 2), (2, 3)],
           mediaRecorder := some 4, audioChunks := [], isRecording := true }

/-- `adjustGain`: stores the slider value and, when a gain node exists,
assigns its `gain.value`.  Nothing else is touched. -/
def adjustGain (v : ℚ) (s : Rev3State) : Rev3State :=
  { s with gainValue := v,
           gainNode := s.gainNode.map (fun g => { g with gain := v }) }

/-- A multipart upload request as the route reads it: the `audio` field (a
blob, absent when the form carries none) and the unused `metadata` field. -/
structure UploadRequest where
  audio : Option (List Nat)
  metadata : Option String

/-- Failure points of the upload route: `formDataErr` when
`req.formData()` throws, `processErr` when reading the blob's bytes or
writing the file throws. -/
structure UploadEnv where
  formDataErr : Bool
  processErr : Bool

/-- Body of the route's JSON response. -/
inductive UploadBody where
  | failure (msg : String)
  | okUpload (filename url : String)
deriving DecidableEq, Repr

/-- An HTTP response of the upload route. -/
structure UploadResponse where
  status : Nat
  body : UploadBody
deriving DecidableEq, Repr

/-- `new Date().toISOString().replace(/[:.]/g, '-')`, character by
character over the string's contents. -/
def sanitizeTimestamp (ts : String) : String :=
  String.mk (ts.data.map (fun c => if c = ':' ∨ c = '.' then '-' else c))

/-- The upload route's `POST` handler: parses the form, rejects a missing
audio field with a 400, otherwise writes the bytes to
`public/uploads/audio-<timestamp>.webm` and answers 200 with the
`/uploads/<filename>` URL; every throw is caught and answered with a 500.
Returns the response together with the list of files written. -/
def uploadPOST (req : UploadRequest) (iso : String) (env : UploadEnv) :
    UploadResponse × List (String × List Nat) :=
  if env.formDataErr then (⟨500, UploadBody.failure "Failed to process audio"⟩, [])
  else
    match req.audio with
    | none => (⟨400, UploadBody.failure "No audio data received"⟩, [])
    | some bytes =>
      let filename := "audio-" ++ sanitizeTimestamp iso ++ ".webm"
      if env.processErr then (⟨500, UploadBody.failure "Failed to process audio"⟩, [])
      else (⟨200, UploadBody.okUpload filename ("/uploads/" ++ filename)⟩,
            [("public/uploads/" ++ filename, bytes)])

/-- Delivering a list of positive-size chunks while the recorder is active
appends them, in order, to the chunk buffer and changes nothing else. -/
theorem runEvents_data (cs : List (List Nat)) (s : ARState)
    (hrec : s.recorder = some (RecPhase.active true))
    (hpos : ∀ c ∈ cs, 0 < c.length) :
    runEvents s (cs.map Ev.dataAvailable) = { s with chunks := s.chunks ++ cs } := by
  induction cs generalizing s with
  | nil => simp [runEvents]
  | cons c cs ih =>
    have hc : 0 < c.length := hpos c (List.mem_cons_self c cs)
    have hstep : step s (Ev.dataAvailable c) = { s with chunks := s.chunks ++ [c] } := by
      simp [step, hrec, dataHandler, hc]
    have htail : runEvents s ((c :: cs).map Ev.dataAvailable) =
        runEvents (step s (Ev.dataAvailable c)) (cs.map Ev.dataAvailable) := rfl
    rw [htail, hstep,
      ih { s with chunks := s.chunks ++ [c] } hrec
        (fun d hd => hpos d (List.mem_cons_of_mem c hd))]
    simp

/-- `getAudioStream` only acquires streams and counts requests: it leaves
every flag, the chunk buffer, the error, the recorder and the artifact of
the state unchanged (whether it succeeds or throws). -/
theorem getAudioStream_frame (env : StartEnv) (s : ARState) :
    (getAudioStream env s).1.isRecording = s.isRecording ∧
    (getAudioStream env s).1.isPlaying = s.isPlaying ∧
    (getAudioStream env s).1.pendingPlay = s.pendingPlay ∧
    (getAudioStream env s).1.recorder = s.recorder ∧
    (getAudioStream env s).1.chunks = s.chunks ∧
    (getAudioStream env s).1.error = s.error ∧
    (getAudioStream env s).1.hasRecording = s.hasRecording ∧
    (getAudioStream env s).1.audioSrc = s.audioSrc ∧
    (getAudioStream env s).1.isBrowserSupported = s.isBrowserSupported := by
  rcases env with ⟨mo, dpo, re⟩
  rcases mo with e | mIds <;> rcases dpo with e2 | ⟨aIds, vIds⟩ <;>
    cases hmode : s.recordingMode
  all_goals try rcases aIds with _ | ⟨a, arest⟩
  all_goals simp [getAudioStream, hmode]

/-- `startRecordingBody` never touches the playing flag, the pending play
promise or the chunk buffer, never raises the recording flag, and either
installs a fresh recorder or keeps the previous one. -/
theorem startRecordingBody_facts (env : StartEnv) (t : ARState) :
    (startRecordingBody env t).isPlaying = t.isPlaying ∧
    (startRecordingBody env t).pendingPlay = t.pendingPlay ∧
    (startRecordingBody env t).chunks = t.chunks ∧
    ((startRecordingBody env t).isRecording = t.isRecording ∨
      (startRecordingBody env t).isRecording = false) ∧
    ((startRecordingBody env t).recorder = some (RecPhase.active false) ∨
      (startRecordingBody env t).recorder = t.recorder) := by
  have h := getAudioStream_frame env t
  unfold startRecordingBody
  split
  · exact ⟨rfl, rfl, rfl, Or.inr rfl, Or.inr rfl⟩
  · split
    · next s1 e heq =>
      rw [heq] at h
      exact ⟨h.2.1, h.2.2.1, h.2.2.2.2.1, Or.inr rfl, Or.inr h.2.2.2.1⟩
    · next s1 m heq hre =>
      rw [heq] at h
      exact ⟨h.2.1, h.2.2.1, h.2.2.2.2.1, Or.inr rfl, Or.inr h.2.2.2.1⟩
    · next s1 heq hre =>
      rw [heq] at h
      exact ⟨h.2.1, h.2.2.1, h.2.2.2.2.1, h.1 ▸ Or.inl rfl, Or.inl rfl⟩

/-- `startRecording` never touches the playing flag or the pending play
promise, always leaves the chunk buffer empty, never raises the recording
flag, and either installs a fresh recorder or keeps the previous one. -/
theorem startRecording_facts (env : StartEnv) (s : ARState) :
    (startRecording env s).isPlaying = s.isPlaying ∧
    (startRecording env s).pendingPlay = s.pendingPlay ∧
    (startRecording env s).chunks = [] ∧
    ((startRecording env s).isRecording = s.isRecording ∨
      (startRecording env s).isRecording = false) ∧
    ((startRecording env s).recorder = some (RecPhase.active false) ∨
      (startRecording env s).recorder = s.recorder) :=
  startRecordingBody_facts env { s with error := none, chunks := ([] : List (List Nat)) }

/-- A capture session in mode `m` that the platform fully grants and that
is stopped with no chunk delivered in between. -/
def zeroChunkTrace (m : Mode) : List Ev :=
  [Ev.selectMode m, Ev.startClick (grantEnv m), Ev.onStart, Ev.stopClick, Ev.onStop]

/-- C2: in every supported capture mode, starting a capture and stopping it
with zero delivered chunks ends with the no-audio-captured error message
stored and no artifact: `hasRecording` stays false, no playable reference
is installed, and the session is no longer recording. -/
theorem stop_without_chunks_is_error (m : Mode) :
    (runEvents (initState true) (zeroChunkTrace m)).error = some noDataMsg ∧
    (runEvents (initState true) (zeroChunkTrace m)).hasRecording = false ∧
    (runEvents (initState true) (zeroChunkTrace m)).audioSrc = none ∧
    (runEvents (initState true) (zeroChunkTrace m)).isRecording = false := by
  cases m <;> exact ⟨rfl, rfl, rfl, rfl⟩

/-- C3: evaluation of the code at the failing input.  In a microphone
session granted track 1, stopping with zero delivered chunks runs the
`onstop` early return: the no-audio error is stored, but the acquired
microphone track has received no `stop()` call and is still active — a
leaked track on this exit path, contradicting the release-on-every-exit
obligation. -/
theorem zero_chunk_stop_leaks_track :
    (runEvents (initState true) (zeroChunkTrace Mode.microphone)).error = some noDataMsg ∧
    activeTracks (runEvents (initState true) (zeroChunkTrace Mode.microphone)) =
      [{ id := 1, stopCalls := 0 }] :=
  ⟨rfl, rfl⟩

/-- C5: in mode `both`, when the microphone permission request is denied
(`NotAllowedError`, whatever its message), the session ends idle with the
combined permission-denied guidance stored as the error, `getDisplayMedia`
is never invoked (the microphone is requested first and the failure
short-circuits), and no track of any kind has been acquired, so in
particular no system-audio stream is left active. -/
theorem both_mode_mic_denied (msg : String)
    (dpo : Except JsError (List Nat × List Nat)) (re : Option String) :
    (runEvents (initState true)
      [Ev.selectMode Mode.both,
       Ev.startClick ⟨Except.error ⟨"NotAllowedError", msg⟩, dpo, re⟩]).error =
        some bothPermissionMsg ∧
    (runEvents (initState true)
      [Ev.selectMode Mode.both,
       Ev.startClick ⟨Except.error ⟨"NotAllowedError", msg⟩, dpo, re⟩]).isRecording = false ∧
    (runEvents (initState true)
      [Ev.selectMode Mode.both,
       Ev.startClick ⟨Except.error ⟨"NotAllowedError", msg⟩, dpo, re⟩]).displayRequests = 0 ∧
    (runEvents (initState true)
      [Ev.selectMode Mode.both,
       Ev.startClick ⟨Except.error ⟨"NotAllowedError", msg⟩, dpo, re⟩]).tracks = [] ∧
    (runEvents (initState true)
      [Ev.selectMode Mode.both,
       Ev.startClick ⟨Except.error ⟨"NotAllowedError", msg⟩, dpo, re⟩]).hasRecording = false :=
  ⟨rfl, rfl, rfl, rfl, rfl⟩

/-- C6, counterexample to the claimed message: in system mode, when the
platform grants the screen share but returns a stream with zero audio
tracks, the stored error is the multi-line "System audio capture failed"
guidance, which is not the string "no system audio detected" named by the
claim. -/
theorem system_no_audio_message_differs :
    (runEvents (initState true)
      [Ev.selectMode Mode.system,
       Ev.startClick ⟨Except.ok [], Except.ok ([], [20]), none⟩]).error =
        some sysNoAudioMsg ∧
    sysNoAudioMsg ≠ "no system audio detected" :=
  ⟨rfl, by decide⟩

/-- C6, amended: in system mode, when the platform grants the screen share
(here with one video track `v`) but the stream has zero audio tracks, the
session fails with the "System audio capture failed" guidance message,
returns to idle with no artifact, and every track of the granted display
stream has been stopped exactly once, leaving no active track. -/
theorem system_mode_no_audio_track (v : Nat) :
    (runEvents (initState true)
      [Ev.selectMode Mode.system,
       Ev.startClick ⟨Except.ok [], Except.ok ([], [v]), none⟩]).error =
        some sysNoAudioMsg ∧
    (runEvents (initState true)
      [Ev.selectMode Mode.system,
       Ev.startClick ⟨Except.ok [], Except.ok ([], [v]), none⟩]).isRecording = false ∧
    (runEvents (initState true)
      [Ev.selectMode Mode.system,
       Ev.startClick ⟨Except.ok [], Except.ok ([], [v]), none⟩]).hasRecording = false ∧
    (runEvents (initState true)
      [Ev.selectMode Mode.system,
       Ev.startClick ⟨Except.ok [], Except.ok ([], [v]), none⟩]).audioSrc = none ∧
    (runEvents (initState true)
      [Ev.selectMode Mode.system,
       Ev.startClick ⟨Except.ok [], Except.ok ([], [v]), none⟩]).tracks =
      [{ id := v, stopCalls := 1 }] := by
  refine ⟨?_, ?_, ?_, ?_, ?_⟩ <;>
    simp [runEvents, step, startRecording, startRecordingBody, getAudioStream,
      startFail, mapSystemOuter, mapSystemInner, stopIds, mkTracks, initState,
      sysNoAudioMsg]

/-- C8: `adjustGain` updates only the gain stage's multiplier: the stored
slider value and the gain node's `gain.value` change, the node itself keeps
its identity, no graph node or connection is created, removed or rewired,
and the recorder, the chunk buffer, the recording flag, the artifact and
the playback state are all untouched. -/
theorem adjustGain_frame (v : ℚ) (s : Rev3State) :
    (adjustGain v s).gainValue = v ∧
    (adjustGain v s).gainNode = s.gainNode.map (fun g => { g with gain := v }) ∧
    (adjustGain v s).gainNode.map RevGainNode.id = s.gainNode.map RevGainNode.id ∧
    (adjustGain v s).connections = s.connections ∧
    (adjustGain v s).audioContext = s.audioContext ∧
    (adjustGain v s).audioSource = s.audioSource ∧
    (adjustGain v s).audioDestination = s.audioDestination ∧
    (adjustGain v s).mediaRecorder = s.mediaRecorder ∧
    (adjustGain v s).audioChunks = s.audioChunks ∧
    (adjustGain v s).isRecording = s.isRecording ∧
    (adjustGain v s).audioData = s.audioData ∧
    (adjustGain v s).isPlaying = s.isPlaying := by
  refine ⟨rfl, rfl, ?_, rfl, rfl, rfl, rfl, rfl, rfl, rfl, rfl, rfl⟩
  cases hg : s.gainNode <;> simp [adjustGain, hg]

/-- C10: the upload endpoint's behaviour is independent of the metadata
field: two requests identical except for their metadata value produce, for
the same timestamp and platform outcome, the same response (status, body,
filename, URL) and the same written files. -/
theorem upload_metadata_noninterference (a : Option (List Nat)) (iso : String)
    (env : UploadEnv) (m1 m2 : Option String) :
    uploadPOST ⟨a, m1⟩ iso env = uploadPOST ⟨a, m2⟩ iso env := rfl

/-- Splitting a run at an append. -/
theorem runEvents_append (s : ARState) (l1 l2 : List Ev) :
    runEvents s (l1 ++ l2) = runEvents (runEvents s l1) l2 := by
  simp [runEvents, List.foldl_append]

/-- A full capture session in mode `m`: the mode is selected, the platform
grants the needed streams (`grantEnv`), the given chunks are delivered in
order, then the user stops the capture. -/
def session (m : Mode) (cs : List (List Nat)) : List Ev :=
  [Ev.selectMode m, Ev.startClick (grantEnv m), Ev.onStart] ++
    (cs.map Ev.dataAvailable ++ [Ev.stopClick, Ev.onStop])

/-- From any mid-recording state (recorder active and started, empty chunk
buffer, recording flag set, not playing, supported browser), delivering a
nonempty list of positive-size chunks and stopping produces exactly one
artifact: the playable source becomes the single blob concatenating the
chunks, `hasRecording` is set, recording ends, the error is untouched and
the referenced microphone and system tracks are stopped. -/
theorem session_stop_artifact (S0 : ARState) (cs : List (List Nat))
    (hrec : S0.recorder = some (RecPhase.active true))
    (hchunks : S0.chunks = [])
    (hri : S0.isRecording = true) (hip : S0.isPlaying = false)
    (hsup : S0.isBrowserSupported = true)
    (hne : cs ≠ []) (hpos : ∀ c ∈ cs, 0 < c.length) :
    (runEvents S0 (cs.map Ev.dataAvailable ++ [Ev.stopClick, Ev.onStop])).audioSrc =
      some cs.flatten ∧
    (runEvents S0 (cs.map Ev.dataAvailable ++ [Ev.stopClick, Ev.onStop])).hasRecording =
      true ∧
    (runEvents S0 (cs.map Ev.dataAvailable ++ [Ev.stopClick, Ev.onStop])).isRecording =
      false ∧
    (runEvents S0 (cs.map Ev.dataAvailable ++ [Ev.stopClick, Ev.onStop])).error =
      S0.error ∧
    (runEvents S0 (cs.map Ev.dataAvailable ++ [Ev.stopClick, Ev.onStop])).tracks =
      stopIds S0.sysIds (stopIds S0.micIds S0.tracks) := by
  have h1 : runEvents S0 (cs.map Ev.dataAvailable) = { S0 with chunks := cs } := by
    rw [runEvents_data cs S0 hrec hpos, hchunks]
    simp
  have h2 : step ({ S0 with chunks := cs } : ARState) Ev.stopClick =
      { S0 with chunks := cs,
                recorder := some RecPhase.stopPending,
                isRecording := false } := by
    simp [step, stopClickHandler, hsup, hip, hri, hrec]
  have h3 : step ({ S0 with chunks := cs,
                            recorder := some RecPhase.stopPending,
                            isRecording := false } : ARState)
      Ev.onStop =
      { S0 with chunks := cs,
                audioSrc := some cs.flatten,
                hasRecording := true,
                tracks := stopIds S0.sysIds (stopIds S0.micIds S0.tracks),
                audioLevel := 0,
                isRecording := false,
                recorder := some RecPhase.done } := by
    simp [step, onStopHandler, hne]
  have hrun : runEvents S0 (cs.map Ev.dataAvailable ++ [Ev.stopClick, Ev.onStop]) =
      step (step (runEvents S0 (cs.map Ev.dataAvailable)) Ev.stopClick) Ev.onStop := by
    rw [runEvents_append]
    rfl
  rw [hrun, h1, h2, h3]
  exact ⟨rfl, rfl, rfl, rfl, rfl⟩

/-- C1: in every capture mode, a granted session in which N>0 chunks were
delivered and stored produces, on stop, exactly one artifact: the playable
source is the single blob concatenating the stored chunks, its size is the
sum of the chunk sizes, `hasRecording` is set, the session is back to idle
with a null error, and no acquired track is left active. -/
theorem stop_with_chunks_single_artifact (m : Mode) (cs : List (List Nat))
    (hne : cs ≠ []) (hpos : ∀ c ∈ cs, 0 < c.length) :
    (runEvents (initState true) (session m cs)).audioSrc = some cs.flatten ∧
    cs.flatten.length = (cs.map List.length).sum ∧
    (runEvents (initState true) (session m cs)).hasRecording = true ∧
    (runEvents (initState true) (session m cs)).isRecording = false ∧
    (runEvents (initState true) (session m cs)).error = none ∧
    activeTracks (runEvents (initState true) (session m cs)) = [] := by
  have hsess : runEvents (initState true) (session m cs) =
      runEvents (runEvents (initState true)
        [Ev.selectMode m, Ev.startClick (grantEnv m), Ev.onStart])
        (cs.map Ev.dataAvailable ++ [Ev.stopClick, Ev.onStop]) := by
    rw [session, runEvents_append]
  cases m with
  | microphone =>
    have hpre : runEvents (initState true)
        [Ev.selectMode Mode.microphone, Ev.startClick (grantEnv Mode.microphone),
          Ev.onStart] =
        ⟨true, false, false, none, 0, Mode.microphone, [], [1], [], [⟨1, 0⟩],
          some (RecPhase.active true), none, false, 0, true⟩ := rfl
    obtain ⟨ha, hhr, hir, herr, htr⟩ :=
      session_stop_artifact (⟨true, false, false, none, 0, Mode.microphone, [], [1], [],
        [⟨1, 0⟩], some (RecPhase.active true), none, false, 0, true⟩ : ARState) cs
        rfl rfl rfl rfl rfl hne hpos
    rw [hsess, hpre]
    refine ⟨ha, List.length_flatten cs, hhr, hir, herr, ?_⟩
    unfold activeTracks
    rw [htr]
    rfl
  | system =>
    have hpre : runEvents (initState true)
        [Ev.selectMode Mode.system, Ev.startClick (grantEnv Mode.system), Ev.onStart] =
        ⟨true, false, false, none, 0, Mode.system, [], [], [2], [⟨2, 0⟩, ⟨3, 1⟩],
          some (RecPhase.active true), none, false, 1, true⟩ := rfl
    obtain ⟨ha, hhr, hir, herr, htr⟩ :=
      session_stop_artifact (⟨true, false, false, none, 0, Mode.system, [], [], [2],
        [⟨2, 0⟩, ⟨3, 1⟩], some (RecPhase.active true), none, false, 1, true⟩ : ARState) cs
        rfl rfl rfl rfl rfl hne hpos
    rw [hsess, hpre]
    refine ⟨ha, List.length_flatten cs, hhr, hir, herr, ?_⟩
    unfold activeTracks
    rw [htr]
    rfl
  | both =>
    have hpre : runEvents (initState true)
        [Ev.selectMode Mode.both, Ev.startClick (grantEnv Mode.both), Ev.onStart] =
        ⟨true, false, false, none, 0, Mode.both, [], [1], [2],
          [⟨1, 0⟩, ⟨2, 0⟩, ⟨3, 1⟩],
          some (RecPhase.active true), none, false, 1, true⟩ := rfl
    obtain ⟨ha, hhr, hir, herr, htr⟩ :=
      session_stop_artifact (⟨true, false, false, none, 0, Mode.both, [], [1], [2],
        [⟨1, 0⟩, ⟨2, 0⟩, ⟨3, 1⟩],
        some (RecPhase.active true), none, false, 1, true⟩ : ARState) cs
        rfl rfl rfl rfl rfl hne hpos
    rw [hsess, hpre]
    refine ⟨ha, List.length_flatten cs, hhr, hir, herr, ?_⟩
    unfold activeTracks
    rw [htr]
    rfl

/-- Witness for C1 at the scenario of the spec: a microphone session with five
delivered chunks of 1000 bytes each; stopping yields one artifact of 5000
bytes, the session is idle and the error is null. -/
theorem stop_with_chunks_single_artifact_witness :
    (runEvents (initState true)
      (session Mode.microphone (List.replicate 5 (List.replicate 1000 0)))).audioSrc =
      some ((List.replicate 5 (List.replicate 1000 0)).flatten) ∧
    ((List.replicate 5 (List.replicate 1000 0)).flatten).length = 5000 ∧
    (runEvents (initState true)
      (session Mode.microphone
        (List.replicate 5 (List.replicate 1000 0)))).hasRecording = true ∧
    (runEvents (initState true)
      (session Mode.microphone
        (List.replicate 5 (List.replicate 1000 0)))).isRecording = false ∧
    (runEvents (initState true)
      (session Mode.microphone (List.replicate 5 (List.replicate 1000 0)))).error =
      none := by
  have h := stop_with_chunks_single_artifact Mode.microphone
    (List.replicate 5 (List.replicate 1000 0))
    (by simp)
    (by intro c hc; rw [List.eq_of_mem_replicate hc]; simp)
  refine ⟨h.1, ?_, h.2.2.1, h.2.2.2.1, h.2.2.2.2.1⟩
  rw [h.2.1]
  simp

/-- C7, counterexample: partial chunks are salvaged, not discarded.  In a
microphone session with one collected chunk, a recorder error fires; the
platform then delivers the final `stop` event of the recorder, and the `onstop`
handler — which has no error guard — builds an artifact from the partial
chunk, installs it as the playable reference and sets `hasRecording`,
while the recording-error message is still stored. -/
theorem recorder_error_partial_chunks_salvaged :
    (runEvents (initState true)
      [Ev.startClick (grantEnv Mode.microphone), Ev.onStart, Ev.dataAvailable [1, 2],
       Ev.onError none, Ev.onStop]).hasRecording = true ∧
    (runEvents (initState true)
      [Ev.startClick (grantEnv Mode.microphone), Ev.onStart, Ev.dataAvailable [1, 2],
       Ev.onError none, Ev.onStop]).audioSrc = some [1, 2] ∧
    (runEvents (initState true)
      [Ev.startClick (grantEnv Mode.microphone), Ev.onStart, Ev.dataAvailable [1, 2],
       Ev.onError none, Ev.onStop]).error =
      some "Recording error: Unknown error" :=
  ⟨rfl, rfl, rfl⟩

/-- C7, amended: the `onerror` handler itself creates no artifact and
leaves the chunk buffer, `hasRecording` and the playable source untouched,
and a subsequent start click begins with an empty chunk buffer; but when
the platform-mandated `stop` event of the recorder then fires with N>0
partially collected chunks, the `onstop` handler salvages them into an
artifact: the playable source becomes their concatenation and
`hasRecording` is set. -/
theorem recorder_error_effects (s : ARState) (m : Option String) (b : Bool)
    (env : StartEnv) (hrec : s.recorder = some (RecPhase.active b))
    (hp : s.isPlaying = false) (hsup : s.isBrowserSupported = true) :
    (step s (Ev.onError m)).hasRecording = s.hasRecording ∧
    (step s (Ev.onError m)).audioSrc = s.audioSrc ∧
    (step s (Ev.onError m)).chunks = s.chunks ∧
    (step (step s (Ev.onError m)) (Ev.startClick env)).chunks = [] ∧
    (s.chunks ≠ [] →
      (step (step s (Ev.onError m)) Ev.onStop).audioSrc = some s.chunks.flatten ∧
      (step (step s (Ev.onError m)) Ev.onStop).hasRecording = true) := by
  have h1 : step s (Ev.onError m) = onErrorHandler m s := by
    simp [step, hrec]
  refine ⟨by rw [h1]; rfl, by rw [h1]; rfl, by rw [h1]; rfl, ?_, ?_⟩
  · have h2 : step (onErrorHandler m s) (Ev.startClick env) =
        startRecording env (onErrorHandler m s) := by
      simp [step, onErrorHandler, hsup, hp]
    rw [h1, h2]
    exact (startRecording_facts env (onErrorHandler m s)).2.2.1
  · intro hne
    have h3 : step (onErrorHandler m s) Ev.onStop =
        onStopHandler (onErrorHandler m s) := rfl
    rw [h1, h3]
    constructor
    · simp [onStopHandler, onErrorHandler, hne]
    · simp [onStopHandler, onErrorHandler, hne]

/-- Witness for C7: in a microphone session with one collected chunk, the
error handler leaves `hasRecording` false, the playable source empty and
the chunk buffer intact, the next start click finds an empty buffer, and
the trailing stop event salvages the chunk into an artifact. -/
theorem recorder_error_effects_witness :
    (step (runEvents (initState true)
        [Ev.startClick (grantEnv Mode.microphone), Ev.onStart, Ev.dataAvailable [1, 2]])
      (Ev.onError none)).hasRecording = false ∧
    (step (runEvents (initState true)
        [Ev.startClick (grantEnv Mode.microphone), Ev.onStart, Ev.dataAvailable [1, 2]])
      (Ev.onError none)).audioSrc = none ∧
    (step (step (runEvents (initState true)
        [Ev.startClick (grantEnv Mode.microphone), Ev.onStart, Ev.dataAvailable [1, 2]])
      (Ev.onError none)) (Ev.startClick (grantEnv Mode.microphone))).chunks = [] ∧
    (step (step (runEvents (initState true)
        [Ev.startClick (grantEnv Mode.microphone), Ev.onStart, Ev.dataAvailable [1, 2]])
      (Ev.onError none)) Ev.onStop).audioSrc = some [1, 2] := by
  have h := recorder_error_effects
    (runEvents (initState true)
      [Ev.startClick (grantEnv Mode.microphone), Ev.onStart, Ev.dataAvailable [1, 2]])
    none true (grantEnv Mode.microphone) rfl rfl rfl
  refine ⟨h.1.trans rfl, h.2.1.trans rfl, h.2.2.2.1, ?_⟩
  exact ((h.2.2.2.2 (by decide)).1).trans (by rfl)

/-- C9: behaviour of the upload endpoint.  Without an audio field the
response is a structured 400 error and nothing is written; with an audio
blob and no failure the bytes are written to
`public/uploads/audio-<sanitized timestamp>.webm` and the response is a
success carrying the `/uploads/<filename>` URL; a throw while parsing the
form or while processing the blob yields a structured 500 error; in every
case the handler returns a response (status 200, 400 or 500), never an
uncaught exception. -/
theorem upload_endpoint_spec (req : UploadRequest) (iso : String) (env : UploadEnv) :
    (env.formDataErr = false → req.audio = none →
      (uploadPOST req iso env).1 = ⟨400, UploadBody.failure "No audio data received"⟩ ∧
      (uploadPOST req iso env).2 = []) ∧
    (∀ bytes, env.formDataErr = false → env.processErr = false → req.audio = some bytes →
      (uploadPOST req iso env).1 =
        ⟨200, UploadBody.okUpload ("audio-" ++ sanitizeTimestamp iso ++ ".webm")
          ("/uploads/" ++ ("audio-" ++ sanitizeTimestamp iso ++ ".webm"))⟩ ∧
      (uploadPOST req iso env).2 =
        [("public/uploads/" ++ ("audio-" ++ sanitizeTimestamp iso ++ ".webm"), bytes)]) ∧
    (env.formDataErr = true →
      (uploadPOST req iso env).1 = ⟨500, UploadBody.failure "Failed to process audio"⟩ ∧
      (uploadPOST req iso env).2 = []) ∧
    (∀ bytes, env.formDataErr = false → env.processErr = true → req.audio = some bytes →
      (uploadPOST req iso env).1 = ⟨500, UploadBody.failure "Failed to process audio"⟩ ∧
      (uploadPOST req iso env).2 = []) ∧
    ((uploadPOST req iso env).1.status = 200 ∨ (uploadPOST req iso env).1.status = 400 ∨
      (uploadPOST req iso env).1.status = 500) := by
  rcases env with ⟨fe, pe⟩
  rcases req with ⟨a, md⟩
  cases fe <;> cases pe <;> cases a <;> simp [uploadPOST]

/-- Witness for C9: a concrete missing-audio request answered 400, a
concrete successful upload answered 200 with the derived filename and URL,
and a concrete parse failure answered 500. -/
theorem upload_endpoint_spec_witness :
    (uploadPOST ⟨none, none⟩ "t" ⟨false, false⟩).1 =
      ⟨400, UploadBody.failure "No audio data received"⟩ ∧
    (uploadPOST ⟨some [7], some "meta"⟩ "2024-01-01T00:00:00.000Z" ⟨false, false⟩).1 =
      ⟨200, UploadBody.okUpload "audio-2024-01-01T00-00-00-000Z.webm"
        "/uploads/audio-2024-01-01T00-00-00-000Z.webm"⟩ ∧
    (uploadPOST ⟨some [7], none⟩ "t" ⟨true, false⟩).1 =
      ⟨500, UploadBody.failure "Failed to process audio"⟩ := by
  refine ⟨((upload_endpoint_spec ⟨none, none⟩ "t" ⟨false, false⟩).1 rfl rfl).1, ?_,
    ((upload_endpoint_spec ⟨some [7], none⟩ "t" ⟨true, false⟩).2.2.1 rfl).1⟩
  have h := ((upload_endpoint_spec ⟨some [7], some "meta"⟩ "2024-01-01T00:00:00.000Z"
    ⟨false, false⟩).2.1 [7] rfl rfl rfl).1
  exact h.trans (by decide)

/-- Rebuilding the serialized invariant from its three components. -/
theorem exclusiveInv_mk (s : ARState) (hab : (s.isRecording && s.isPlaying) = false)
    (hpp : s.pendingPlay = false) (hnps : noPendingStart s = true) :
    exclusiveInv s = true := by
  simp [exclusiveInv, hab, hpp, hnps]

/-- When no recorder is waiting for `onstart`, the `onstart` callback is a
no-op. -/
theorem step_onStart_of_noPending (s : ARState) (h : noPendingStart s = true) :
    step s Ev.onStart = s := by
  rcases hsr : s.recorder with _ | ph
  · simp [step, hsr]
  · cases ph with
    | active bb =>
      cases bb
      · simp [noPendingStart, hsr] at h
      · simp [step, hsr]
    | stopPending => simp [step, hsr]
    | done => simp [step, hsr]

/-- The `onstop` event preserves the serialized invariant from any state
whose flags already satisfy it: the handler never touches the playing flag
or the play promise, never raises the recording flag, and leaves the
recorder in a finished phase. -/
theorem step_onStop_inv (t : ARState)
    (hab : (t.isRecording && t.isPlaying) = false)
    (hpp : t.pendingPlay = false) (hnps : noPendingStart t = true) :
    exclusiveInv (step t Ev.onStop) = true := by
  rcases hsr : t.recorder with _ | ph
  · simp [step, hsr, exclusiveInv, hab, hpp, hnps]
  · cases ph with
    | active bb => simp [step, hsr, exclusiveInv, hab, hpp, hnps]
    | stopPending =>
      by_cases hc : t.chunks = []
      · simp [step, hsr, onStopHandler, hc, exclusiveInv, hab, hpp, noPendingStart]
      · simp [step, hsr, onStopHandler, hc, exclusiveInv, hab, hpp, noPendingStart]
    | done => simp [step, hsr, exclusiveInv, hab, hpp, hnps]

/-- Every serialized operation preserves the invariant: in particular no
composite user operation can make both activity flags true. -/
theorem atomicStep_inv (s : ARState) (op : UserOp)
    (h : exclusiveInv s = true) : exclusiveInv (atomicStep s op) = true := by
  have h' := h
  simp only [exclusiveInv, Bool.and_eq_true, Bool.not_eq_true'] at h'
  obtain ⟨⟨hab, hpp⟩, hnps⟩ := h'
  cases op with
  | record env =>
    show exclusiveInv (step (step s (Ev.startClick env)) Ev.onStart) = true
    by_cases hg : (s.isBrowserSupported && !s.isPlaying && !s.isRecording) = true
    · have hg' := hg
      simp only [Bool.and_eq_true, Bool.not_eq_true'] at hg'
      obtain ⟨⟨hsup, hplay⟩, hrec0⟩ := hg'
      have hstart : step s (Ev.startClick env) = startRecording env s := by
        simp [step, hg]
      obtain ⟨f1, f2, f3, f4, f5⟩ := startRecording_facts env s
      rw [hstart]
      rcases f5 with h5 | h5
      · have honstart : step (startRecording env s) Ev.onStart =
            { startRecording env s with
                recorder := some (RecPhase.active true),
                isRecording := true,
                error := none } := by
          simp [step, h5]
        rw [honstart]
        refine exclusiveInv_mk _ ?_ ?_ ?_
        · simp [f1, hplay]
        · simp [f2, hpp]
        · simp [noPendingStart]
      · have hnps2 : noPendingStart (startRecording env s) = true := by
          simpa [noPendingStart, h5] using hnps
        rw [step_onStart_of_noPending _ hnps2]
        refine exclusiveInv_mk _ ?_ (f2.trans hpp) hnps2
        rcases f4 with h4 | h4
        · simp [h4, hrec0]
        · simp [h4]
    · have hstart : step s (Ev.startClick env) = s := by simp [step, hg]
      rw [hstart, step_onStart_of_noPending s hnps]
      exact h
  | stopRec =>
    show exclusiveInv (step (step s Ev.stopClick) Ev.onStop) = true
    by_cases hg : (s.isBrowserSupported && !s.isPlaying && s.isRecording) = true
    · have hstop : step s Ev.stopClick = stopClickHandler s := by simp [step, hg]
      rw [hstop]
      rcases hsr : s.recorder with _ | ph
      · rw [show stopClickHandler s = s from by simp [stopClickHandler, hsr]]
        exact step_onStop_inv s hab hpp hnps
      · cases ph with
        | active bb =>
          rw [show stopClickHandler s =
              { s with recorder := some RecPhase.stopPending, isRecording := false } from by
            simp [stopClickHandler, hsr]]
          exact step_onStop_inv _ (by simp) hpp (by simp [noPendingStart])
        | stopPending =>
          rw [show stopClickHandler s = s from by simp [stopClickHandler, hsr]]
          exact step_onStop_inv s hab hpp hnps
        | done =>
          rw [show stopClickHandler s = s from by simp [stopClickHandler, hsr]]
          exact step_onStop_inv s hab hpp hnps
    · have hstop : step s Ev.stopClick = s := by simp [step, hg]
      rw [hstop]
      exact step_onStop_inv s hab hpp hnps
  | recErr m =>
    show exclusiveInv (step s (Ev.onError m)) = true
    rcases hsr : s.recorder with _ | ph
    · simpa [step, hsr] using h
    · cases ph with
      | active bb =>
        rw [show step s (Ev.onError m) = onErrorHandler m s from by simp [step, hsr]]
        exact exclusiveInv_mk _ rfl hpp rfl
      | stopPending => simpa [step, hsr] using h
      | done => simpa [step, hsr] using h
  | chunk c =>
    show exclusiveInv (step s (Ev.dataAvailable c)) = true
    rcases hsr : s.recorder with _ | ph
    · simpa [step, hsr] using h
    · cases ph with
      | active bb =>
        by_cases hlen : 0 < c.length
        · rw [show step s (Ev.dataAvailable c) = { s with chunks := s.chunks ++ [c] } from by
            simp [step, hsr, dataHandler, hlen]]
          exact exclusiveInv_mk _ hab hpp (by simpa [noPendingStart] using hnps)
        · rw [show step s (Ev.dataAvailable c) = s from by simp [step, hsr, dataHandler, hlen]]
          exact h
      | stopPending =>
        by_cases hlen : 0 < c.length
        · rw [show step s (Ev.dataAvailable c) = { s with chunks := s.chunks ++ [c] } from by
            simp [step, hsr, dataHandler, hlen]]
          exact exclusiveInv_mk _ hab hpp (by simpa [noPendingStart] using hnps)
        · rw [show step s (Ev.dataAvailable c) = s from by simp [step, hsr, dataHandler, hlen]]
          exact h
      | done => simpa [step, hsr] using h
  | play ok m =>
    show exclusiveInv (step (step s Ev.playClick) (Ev.playResolved ok m)) = true
    by_cases hg : (s.isBrowserSupported && s.hasRecording && !s.isRecording) = true
    · have hg' := hg
      simp only [Bool.and_eq_true, Bool.not_eq_true'] at hg'
      obtain ⟨⟨hsup, hhr⟩, hrec0⟩ := hg'
      have hclick : step s Ev.playClick = playClickHandler s := by simp [step, hg]
      rw [hclick]
      cases hip : s.isPlaying
      · rcases hsrc : s.audioSrc with _ | blob
        · rw [show playClickHandler s = { s with error := some noPlayMsg } from by
            simp [playClickHandler, hip, hsrc]]
          rw [show step ({ s with error := some noPlayMsg } : ARState)
              (Ev.playResolved ok m) = { s with error := some noPlayMsg } from by
            simp [step, hpp]]
          exact exclusiveInv_mk _ hab hpp (by simpa [noPendingStart] using hnps)
        · rw [show playClickHandler s = { s with pendingPlay := true } from by
            simp [playClickHandler, hip, hsrc]]
          cases ok
          · rw [show step ({ s with pendingPlay := true } : ARState)
                (Ev.playResolved false m) =
                { s with
                    error := some ("Failed to play audio: " ++ m),
                    isPlaying := false,
                    pendingPlay := false } from by
              simp [step, playResolvedHandler]]
            exact exclusiveInv_mk _ (by simp) rfl (by simpa [noPendingStart] using hnps)
          · rw [show step ({ s with pendingPlay := true } : ARState)
                (Ev.playResolved true m) =
                { s with isPlaying := true, error := none, pendingPlay := false } from by
              simp [step, playResolvedHandler]]
            refine exclusiveInv_mk _ ?_ rfl (by simpa [noPendingStart] using hnps)
            simp [hrec0]
      · rw [show playClickHandler s = { s with isPlaying := false } from by
          simp [playClickHandler, hip]]
        rw [show step ({ s with isPlaying := false } : ARState) (Ev.playResolved ok m) =
            { s with isPlaying := false } from by simp [step, hpp]]
        exact exclusiveInv_mk _ (by simp) hpp (by simpa [noPendingStart] using hnps)
    · have hclick : step s Ev.playClick = s := by simp [step, hg]
      rw [hclick, show step s (Ev.playResolved ok m) = s from by simp [step, hpp]]
      exact h
  | ended =>
    show exclusiveInv (step s Ev.audioEnded) = true
    rw [show step s Ev.audioEnded = { s with isPlaying := false } from by simp [step]]
    exact exclusiveInv_mk _ (by simp) hpp (by simpa [noPendingStart] using hnps)
  | chooseMode mm =>
    show exclusiveInv (step s (Ev.selectMode mm)) = true
    by_cases hg : (s.isBrowserSupported && !s.isRecording) = true
    · rw [show step s (Ev.selectMode mm) = { s with recordingMode := mm } from by
        simp [step, hg]]
      exact exclusiveInv_mk _ hab hpp (by simpa [noPendingStart] using hnps)
    · simpa [step, hg] using h

/-- C4, counterexample: through the component's own fine-grained callbacks
a state with both flags true is reachable.  After recording an artifact,
the user clicks play (the promise is pending), clicks start recording
(still enabled: `isPlaying` is not yet set), the recorder's `onstart`
makes `isRecording` true, and then the play promise resolves, making
`isPlaying` true as well — capture and playback are concurrently active. -/
theorem recording_while_playing_reachable :
    (runEvents (initState true)
      [Ev.startClick (grantEnv Mode.microphone), Ev.onStart, Ev.dataAvailable [1, 2],
       Ev.stopClick, Ev.onStop, Ev.playClick,
       Ev.startClick (grantEnv Mode.microphone), Ev.onStart,
       Ev.playResolved true ""]).isRecording = true ∧
    (runEvents (initState true)
      [Ev.startClick (grantEnv Mode.microphone), Ev.onStart, Ev.dataAvailable [1, 2],
       Ev.stopClick, Ev.onStop, Ev.playClick,
       Ev.startClick (grantEnv Mode.microphone), Ev.onStart,
       Ev.playResolved true ""]).isPlaying = true :=
  ⟨rfl, rfl⟩

/-- C4, amended: under serialized operation — every initiated operation's
completion callback (recorder `onstart`, play-promise resolution, recorder
`onstop`) fires before the next user action — the recording and playing
flags are never simultaneously true in any reachable state, because each
control is disabled or absent while the other activity's flag is set. -/
theorem serialized_mutual_exclusion (supported : Bool) (ops : List UserOp) :
    ((runAtomic (initState supported) ops).isRecording &&
      (runAtomic (initState supported) ops).isPlaying) = false := by
  have key : ∀ (l : List UserOp) (s : ARState), exclusiveInv s = true →
      exclusiveInv (runAtomic s l) = true := by
    intro l
    induction l with
    | nil => intro s hs; exact hs
    | cons op l ih => intro s hs; exact ih _ (atomicStep_inv s op hs)
  have h := key ops (initState supported) rfl
  simp only [exclusiveInv, Bool.and_eq_true, Bool.not_eq_true'] at h
  exact h.1.1
